import Mathlib

/-!
Verification of the ARPcurves repository: a shallow embedding of the
Arps decline-curve fitting pipeline (`arps_autofit_csv.py`) and the fit
validator (`arps_validation.py`), with theorems settling the claims about
them.  Rates, parameters and thresholds are modelled as exact rationals;
NaN goodness-of-fit fields are modelled as `Option ℚ` with `none` for NaN;
Python exceptions are modelled as `Option`/`Except` results.
-/

namespace ARPcurves

/-- b-factor bounds dictionary \x7bmin, guess, max\x7d (`b_dict`). -/
structure BDict where
  min : ℚ
  guess : ℚ
  max : ℚ
deriving DecidableEq

/-- Initial-decline bounds dictionary (`dei_dict`).  The source reads
`dei_dict.get('min', def_dict[phase])`, so the `min` key may be absent:
it is an `Option`. -/
structure DeiDict where
  min : Option ℚ
  guess : ℚ
  max : ℚ
deriving DecidableEq

/-- An optimizer configuration as built in `arps_autofit_csv.py`:
the list of parameter names to optimize and the fixed name→value map
(association list, in source order). -/
structure FitConfig where
  optimize : List String
  fixed : List (String × ℚ)
deriving DecidableEq

/-- A result row of `fit_arps_curve` / `fit_aggregate_arps_curve`, in the
order of `param_df_cols`: WellID, Measure, fit_months, fit_type,
fit_segment, StartDate, StartMonth, Q_guess, Q3, Dei, b_factor,
R_squared, RMSE, MAE.  The three goodness-of-fit metrics are `Option ℚ`
(`none` models `np.nan`). -/
structure FitRow where
  wellId : String
  measure : String
  fitMonths : ℕ
  fitType : String
  fitSegment : String
  startDate : ℤ
  startMonth : ℤ
  qGuess : ℚ
  q3 : ℚ
  dei : ℚ
  bFactor : ℚ
  rSquared : Option ℚ
  rmse : Option ℚ
  mae : Option ℚ
deriving DecidableEq

/-- Modelled from the spec: the module `prod_fcst_functions` (CurveFitter
and DeclineCurveModel) is not under `src/`.  Per the spec's CurveFitter
contract, an optimizer takes the data, initial guess, bounds and a
fixed/free configuration and either returns the optimized values in the
order of `config.optimize` or fails (a Python exception, modelled as
`none`); `varps` is the decline-curve prediction `q_pred` and `gof`
returns (R², RMSE, MAE).  The claims proved below hold for every oracle,
so nothing depends on the numeric behaviour of the missing module. -/
structure FitOracle where
  fitDeiB : List ℚ → List ℚ → List ℚ → List (ℚ × ℚ) → FitConfig → Option (ℚ × ℚ)
  fitDei : List ℚ → List ℚ → List ℚ → List (ℚ × ℚ) → FitConfig → Option ℚ
  varps : ℚ → ℚ → ℚ → ℚ → List ℚ → List ℚ
  gof : List ℚ → List ℚ → ℚ × ℚ × ℚ

/-- One pass of `pd.Series.rolling(window=3, min_periods=1).mean()`:
entry `i` is the mean of the window `q[max(0,i-2) .. i]`. -/
def rollingMean3 (q : List ℚ) : List ℚ :=
  (List.range q.length).map (fun i =>
    let lo := i - 2
    let w := (q.drop lo).take (i + 1 - lo)
    w.sum / (w.length : ℚ))

/-- `smoothing_factor` passes of the 3-point rolling mean
(`for i in range(smoothing_factor): q = q.rolling(3, min_periods=1).mean()`). -/
def smoothN (n : ℕ) (q : List ℚ) : List ℚ :=
  Nat.rec q (fun _ acc => rollingMean3 acc) n

/-- The configuration built by `auto_fit1` (and, with the measure in place
of the phase, by the aggregate fit): optimize \x7bDei, b\x7d, fix Qi and Def. -/
def autoFit1Cfg (QiGuess defPhase : ℚ) : FitConfig :=
  { optimize := ["Dei", "b"], fixed := [("Qi", QiGuess), ("Def", defPhase)] }

/-- The configuration built by `auto_fit2`: optimize \x7bDei\x7d only,
fix Qi, b and Def. -/
def autoFit2Cfg (QiGuess bGuess defPhase : ℚ) : FitConfig :=
  { optimize := ["Dei"], fixed := [("Qi", QiGuess), ("b", bGuess), ("Def", defPhase)] }

/-- The configuration built inside `fit_aggregate_arps_curve`
(`config_optimize_dei_b`): optimize \x7bDei, b\x7d, fix Qi and Def. -/
def aggregateCfg (QiGuess defMeasure : ℚ) : FitConfig :=
  { optimize := ["Dei", "b"], fixed := [("Qi", QiGuess), ("Def", defMeasure)] }

/-- The row returned by `auto_fit1`: Q_guess and Q3 are both the (smoothed)
`Qi_guess` (`qi_fit = Qi_guess  # Qi is fixed, not optimized`), Dei and b
come from the optimizer, and the metrics are computed from the prediction. -/
def autoFit1Row (oracle : FitOracle) (propertyId phase : String) (arrLength : ℕ)
    (fitSegment : String) (startDate startMonth : ℤ) (QiGuess DeiFit bFit defPhase : ℚ)
    (tAct qAct : List ℚ) : FitRow :=
  let qPred := oracle.varps QiGuess DeiFit defPhase bFit tAct
  let g := oracle.gof qAct qPred
  { wellId := propertyId, measure := phase, fitMonths := arrLength,
    fitType := "auto_fit_1", fitSegment := fitSegment,
    startDate := startDate, startMonth := startMonth,
    qGuess := QiGuess, q3 := QiGuess, dei := DeiFit, bFactor := bFit,
    rSquared := some g.1, rmse := some g.2.1, mae := some g.2.2 }

/-- The row returned by `auto_fit2`: only Dei was optimized; Q_guess and
Q3 are both `Qi_guess` and b is the guess. -/
def autoFit2Row (oracle : FitOracle) (propertyId phase : String) (arrLength : ℕ)
    (fitSegment : String) (startDate startMonth : ℤ) (QiGuess DeiFit bGuess defPhase : ℚ)
    (tAct qAct : List ℚ) : FitRow :=
  let qPred := oracle.varps QiGuess DeiFit defPhase bGuess tAct
  let g := oracle.gof qAct qPred
  { wellId := propertyId, measure := phase, fitMonths := arrLength,
    fitType := "auto_fit_2", fitSegment := fitSegment,
    startDate := startDate, startMonth := startMonth,
    qGuess := QiGuess, q3 := QiGuess, dei := DeiFit, bFactor := bGuess,
    rSquared := some g.1, rmse := some g.2.1, mae := some g.2.2 }

/-- The degenerate row returned by `auto_fit3`: Qi fields are `Qi_guess`,
Dei is `max(Dei_init, def_dict[phase])`, b is the guess, and the three
goodness-of-fit metrics are `np.nan` (here `none`). -/
def autoFit3Row (propertyId phase : String) (arrLength : ℕ) (fitSegment : String)
    (startDate startMonth : ℤ) (QiGuess DeiInit defPhase bGuess : ℚ) : FitRow :=
  { wellId := propertyId, measure := phase, fitMonths := arrLength,
    fitType := "auto_fit_3", fitSegment := fitSegment,
    startDate := startDate, startMonth := startMonth,
    qGuess := QiGuess, q3 := QiGuess, dei := max DeiInit defPhase, bFactor := bGuess,
    rSquared := none, rmse := none, mae := none }

/-- `fit_arps_curve` from the point where the fitting arrays for the
selected segment are prepared (`t_act`, `q_act`, `start_date`,
`start_month`): the strategy cascade of lines 279–310.  A failing
optimizer call (a Python exception in `perform_curve_fit`) is an oracle
result of `none` and triggers the `except` fallback. -/
def fitArpsCurve (oracle : FitOracle) (propertyId phase : String)
    (bDict : BDict) (deiDict : DeiDict) (defDict minQDict : String → ℚ)
    (tAct qAct : List ℚ) (startDate startMonth : ℤ)
    (fitSegment : String) (smoothingFactor : ℕ) : FitRow :=
  let arrLength := qAct.length
  let QiGuess := qAct.headD 0
  let DeiInit := deiDict.guess
  let DeiMin := deiDict.min.getD (defDict phase)
  let DeiMax := deiDict.max
  let bGuess := bDict.guess
  let bMin := min bDict.min bDict.max
  let bMax := max bDict.min bDict.max
  if QiGuess < minQDict phase ∨ arrLength < 3 then
    autoFit3Row propertyId phase arrLength fitSegment startDate startMonth
      QiGuess DeiInit (defDict phase) bGuess
  else if arrLength < 7 then
    match oracle.fitDei tAct qAct [DeiInit] [(DeiMin, DeiMax)]
        (autoFit2Cfg QiGuess bGuess (defDict phase)) with
    | some DeiFit =>
        autoFit2Row oracle propertyId phase arrLength fitSegment startDate startMonth
          QiGuess DeiFit bGuess (defDict phase) tAct qAct
    | none =>
        autoFit3Row propertyId phase arrLength fitSegment startDate startMonth
          QiGuess DeiInit (defDict phase) bGuess
  else
    let qs := smoothN smoothingFactor qAct
    let QiG2 := qs.headD 0
    match oracle.fitDeiB tAct qs [DeiInit, bGuess] [(DeiMin, bMin), (DeiMax, bMax)]
        (autoFit1Cfg QiG2 (defDict phase)) with
    | some p =>
        autoFit1Row oracle propertyId phase arrLength fitSegment startDate startMonth
          QiG2 p.1 p.2 (defDict phase) tAct qs
    | none =>
        match oracle.fitDei tAct qs [DeiInit] [(DeiMin, DeiMax)]
            (autoFit2Cfg QiG2 bGuess (defDict phase)) with
        | some DeiFit =>
            autoFit2Row oracle propertyId phase arrLength fitSegment startDate startMonth
              QiG2 DeiFit bGuess (defDict phase) tAct qs
        | none =>
            autoFit3Row propertyId phase arrLength fitSegment startDate startMonth
              QiG2 DeiInit (defDict phase) bGuess

/-- A 3-point rolling mean keeps the first entry: the window at index 0
is the singleton `[q 0]`. -/
theorem rollingMean3_headD (q : List ℚ) : (rollingMean3 q).headD 0 = q.headD 0 := by
  cases q with
  | nil => rfl
  | cons a l =>
      simp [rollingMean3, List.range_succ_eq_map]

/-- Rolling smoothing preserves length. -/
theorem rollingMean3_length (q : List ℚ) : (rollingMean3 q).length = q.length := by
  simp [rollingMean3]

/-- Iterated smoothing keeps the first entry. -/
theorem smoothN_headD (n : ℕ) (q : List ℚ) : (smoothN n q).headD 0 = q.headD 0 := by
  induction n with
  | zero => rfl
  | succ m ih =>
      rw [show smoothN (m + 1) q = rollingMean3 (smoothN m q) from rfl,
        rollingMean3_headD, ih]

/-- Iterated smoothing preserves length. -/
theorem smoothN_length (n : ℕ) (q : List ℚ) : (smoothN n q).length = q.length := by
  induction n with
  | zero => rfl
  | succ m ih =>
      rw [show smoothN (m + 1) q = rollingMean3 (smoothN m q) from rfl,
        rollingMean3_length, ih]

/-- One production record of `prod_df_all_wells`: WellID, Measure, the
date (as a day number, so date differences in days are subtractions) and
the production value. -/
structure ProdRec where
  wellId : String
  measure : String
  dateDays : ℤ
  value : ℚ
deriving DecidableEq

/-- One row of the aggregated type-curve frame: the month bucket, the
bucket's `avg_production`, its `well_count`, and the `predicted` column
(absent, `none`, until a successful fit attaches it). -/
structure AggRow where
  monthsFromStart : ℤ
  avgProduction : ℚ
  wellCount : ℕ
  predicted : Option ℚ
deriving DecidableEq

/-- `df['Date'].min()` over a list of day numbers. -/
def listMinInt (l : List ℤ) : ℤ :=
  match l with
  | [] => 0
  | x :: xs => xs.foldl min x

/-- `int((date - min_date).days / 30.42)`: the month bucket of a record.
The day offset is non-negative, so Python's truncation toward zero is the
floor of the exact rational quotient. -/
def bucketOf (minDate d : ℤ) : ℤ :=
  ⌊((d - minDate : ℚ)) / (3042 / 100)⌋

/-- The record filter of `fit_aggregate_arps_curve`: positive value and
matching measure. -/
def aggFilter (measure : String) (rows : List ProdRec) : List ProdRec :=
  rows.filter (fun r => decide (0 < r.value ∧ r.measure = measure))

/-- The `groupby('months_from_start').agg(mean, count)` step: one `AggRow`
per distinct bucket (in ascending bucket order, as `groupby` sorts keys),
whose `avg_production` is the mean of the bucket's record values and whose
`well_count` is pandas `count` — the number of records in the bucket. -/
def aggRows (df : List ProdRec) : List AggRow :=
  let minDate := listMinInt (df.map (fun r => r.dateDays))
  let keys := ((df.map (fun r => bucketOf minDate r.dateDays)).dedup).insertionSort (· ≤ ·)
  keys.map (fun m =>
    let rs := df.filter (fun r => decide (bucketOf minDate r.dateDays = m))
    { monthsFromStart := m,
      avgProduction := (rs.map (fun r => r.value)).sum / (rs.length : ℚ),
      wellCount := rs.length,
      predicted := none })

/-- `aggregated['predicted'] = q_pred`: attach the prediction column
(positionally; the two lists have equal length at the call site). -/
def attachPredictions (agg : List AggRow) (qPred : List ℚ) : List AggRow :=
  agg.zipWith (fun a p => { a with predicted := some p }) qPred

/-- `fit_aggregate_arps_curve`: filter to the measure, bucket and average
across wells, and fit one curve to the averaged series.  Returns
`(result_list, aggregated_df)` with `none` components where the source
returns `None`; a `none` from the optimizer oracle models the exception
caught by the surrounding `try/except`.  Like the source's `min_q_dict`
parameter, `minQDict` is accepted but never read in this function. -/
def fitAggregateArpsCurve (oracle : FitOracle) (measure : String)
    (bDict : BDict) (deiDict : DeiDict) (defDict minQDict : String → ℚ)
    (rows : List ProdRec) (smoothingFactor : ℕ) :
    Option FitRow × Option (List AggRow) :=
  let df := aggFilter measure rows
  if df.isEmpty then (none, none)
  else
    let minDate := listMinInt (df.map (fun r => r.dateDays))
    let aggregated := aggRows df
    let tAct := aggregated.map (fun a => (a.monthsFromStart : ℚ))
    let qActRaw := aggregated.map (fun a => a.avgProduction)
    let arrLength := tAct.length
    if arrLength < 3 then (none, some aggregated)
    else
      let qAct := smoothN smoothingFactor qActRaw
      let QiGuess := qAct.headD 0
      let DeiInit := deiDict.guess
      let DeiMin := deiDict.min.getD (defDict measure)
      let DeiMax := deiDict.max
      let bGuess := bDict.guess
      let bMin := min bDict.min bDict.max
      let bMax := max bDict.min bDict.max
      match oracle.fitDeiB tAct qAct [DeiInit, bGuess] [(DeiMin, bMin), (DeiMax, bMax)]
          (aggregateCfg QiGuess (defDict measure)) with
      | none => (none, some aggregated)
      | some p =>
          let qPred := oracle.varps QiGuess p.1 (defDict measure) p.2 tAct
          let g := oracle.gof qAct qPred
          (some { wellId := "AGGREGATE", measure := measure, fitMonths := arrLength,
                  fitType := "aggregate_fit", fitSegment := "all",
                  startDate := minDate, startMonth := 0,
                  qGuess := QiGuess, q3 := QiGuess, dei := p.1, bFactor := p.2,
                  rSquared := some g.1, rmse := some g.2.1, mae := some g.2.2 },
           some (attachPredictions aggregated qPred))

/-- `np.mean` of a list (empty list: 0, where numpy gives NaN; no claim
depends on the empty case). -/
def meanL (l : List ℚ) : ℚ := l.sum / (l.length : ℚ)

/-- Population variance, the square of `np.std`. -/
def varL (l : List ℚ) : ℚ := meanL (l.map (fun x => (x - meanL l) ^ 2))

/-- `_validate_time_zero`: fails on an empty time array, otherwise passes
iff `abs(t[0])` is within the 0.01 tolerance. -/
def validateTimeZero (tAct : List ℚ) : Bool :=
  match tAct with
  | [] => false
  | t0 :: _ => decide (|t0| ≤ 1 / 100)

/-- `error_pct` of `_validate_first_point`:
`abs(q_pred[0] - q_act[0]) / q_act[0] * 100 if q_act[0] > 0 else 100`. -/
def firstPointErrorPct (qAct qPred : List ℚ) : ℚ :=
  if 0 < qAct.headD 0 then |qPred.headD 0 - qAct.headD 0| / qAct.headD 0 * 100 else 100

/-- The recorded `pass` field of the first-point test: the plain `False`
entry when either rate array is empty, else `error_pct < 15.0`. -/
def firstPointRecordedPass (qAct qPred : List ℚ) : Bool :=
  if qPred.isEmpty || qAct.isEmpty then false
  else decide (firstPointErrorPct qAct qPred < 15)

/-- The boolean `_validate_first_point` returns (its contribution to
`overall_pass`): `False` on empty arrays or when `error_pct > 15.0`,
`True` otherwise — so it passes at `error_pct == 15.0` exactly, unlike
the recorded `pass` field. -/
def validateFirstPoint (qAct qPred : List ℚ) : Bool :=
  if qPred.isEmpty || qAct.isEmpty then false
  else decide (firstPointErrorPct qAct qPred ≤ 15)

/-- Warnings appended by `_validate_first_point`: one when
`error_pct > 15.0` (mismatch), one when `15.0 ≥ error_pct > 10.0`
(acceptable but not ideal); the empty-array case appends to `errors`. -/
def firstPointWarnCount (qAct qPred : List ℚ) : ℕ :=
  if qPred.isEmpty || qAct.isEmpty then 0
  else if 15 < firstPointErrorPct qAct qPred then 1
  else if 10 < firstPointErrorPct qAct qPred then 1
  else 0

/-- The increases `_validate_decline_trend` collects: indices `i ≥ 1` with
`q_pred[i] > q_pred[i-1] * 1.05`, as consecutive pairs. -/
def declineIncreases (qPred : List ℚ) : ℕ :=
  ((qPred.zip qPred.tail).filter (fun p => decide (p.1 * (105 / 100) < p.2))).length

/-- `_validate_decline_trend`: arrays of fewer than 2 points auto-pass;
otherwise pass iff there is no more-than-5% increase between consecutive
predicted rates. -/
def validateDeclineTrend (qPred : List ℚ) : Bool :=
  if qPred.length < 2 then true
  else decide (declineIncreases qPred = 0)

/-- Warnings appended by `_validate_decline_trend`. -/
def declineWarnCount (qPred : List ℚ) : ℕ :=
  if qPred.length < 2 then 0
  else if declineIncreases qPred = 0 then 0 else 1

/-- `R² = 1 - SS_res/SS_tot if SS_tot > 0 else 0` of
`_validate_goodness_of_fit`. -/
def r2Of (qAct qPred : List ℚ) : ℚ :=
  let ssRes := ((qAct.zipWith (fun a p => a - p) qPred).map (fun r => r ^ 2)).sum
  let ssTot := ((qAct.map (fun a => a - meanL qAct)).map (fun d => d ^ 2)).sum
  if 0 < ssTot then 1 - ssRes / ssTot else 0

/-- The boolean `_validate_goodness_of_fit` returns: `False` only when
`r2 < 0.70` (the recorded `pass` field is the strict `r2 > 0.70`). -/
def validateGof (qAct qPred : List ℚ) : Bool :=
  decide (¬(r2Of qAct qPred < 7 / 10))

/-- Warnings appended by `_validate_goodness_of_fit`: poor fit
(`r2 < 0.70`) or merely acceptable fit (`r2 < 0.85`). -/
def gofWarnCount (qAct qPred : List ℚ) : ℕ :=
  if r2Of qAct qPred < 7 / 10 then 1
  else if r2Of qAct qPred < 85 / 100 then 1 else 0

/-- The number of issues `_validate_parameters` appends: non-positive Qi,
Dei outside [0,1], b outside [0,2], Dei below Def. -/
def paramIssueCount (qiFit deiFit bFit defVal : ℚ) : ℕ :=
  (if qiFit ≤ 0 then 1 else 0) +
  (if deiFit < 0 ∨ 1 < deiFit then 1 else 0) +
  (if bFit < 0 ∨ 2 < bFit then 1 else 0) +
  (if deiFit < defVal then 1 else 0)

/-- `_validate_parameters` passes iff the issue list is empty. -/
def validateParameters (qiFit deiFit bFit defVal : ℚ) : Bool :=
  decide (paramIssueCount qiFit deiFit bFit defVal = 0)

/-- Residuals `q_act - q_pred` of `_validate_residuals`. -/
def residualsOf (qAct qPred : List ℚ) : List ℚ :=
  qAct.zipWith (fun a p => a - p) qPred

/-- The bias check of `_validate_residuals`.  The source compares
`abs(mean_residual) > 0.5 * std_residual` with `std = sqrt(variance)`;
both sides are non-negative, so the comparison is equivalent to the
comparison of the squares, which keeps the model inside ℚ. -/
def residualHasBias (qAct qPred : List ℚ) : Bool :=
  decide ((1 / 4) * varL (residualsOf qAct qPred) < (meanL (residualsOf qAct qPred)) ^ 2)

/-- `_validate_residuals` passes iff no systematic bias is detected. -/
def validateResiduals (qAct qPred : List ℚ) : Bool :=
  !(residualHasBias qAct qPred)

/-- Warnings appended by `_validate_residuals`. -/
def residWarnCount (qAct qPred : List ℚ) : ℕ :=
  if residualHasBias qAct qPred then 1 else 0

/-- Errors appended by `_validate_time_zero`. -/
def timeZeroErrCount (tAct : List ℚ) : ℕ :=
  match tAct with
  | [] => 1
  | t0 :: _ => if 1 / 100 < |t0| then 1 else 0

/-- Errors appended by `_validate_first_point` (empty-array case only). -/
def firstPointErrCount (qAct qPred : List ℚ) : ℕ :=
  if qPred.isEmpty || qAct.isEmpty then 1 else 0

/-- The validation report of `ARPSValidator.validate_fit`: the recorded
per-test pass fields of `results['tests']`, `overall_pass`, and the
lengths of the `warnings` and `errors` lists. -/
structure ValidationReport where
  wellId : String
  phase : String
  testTimeZero : Bool
  testFirstPointPass : Bool
  testDeclinePass : Bool
  testGofPass : Bool
  testParamsPass : Bool
  testResidualPass : Bool
  overallPass : Bool
  warningsCount : ℕ
  errorsCount : ℕ
deriving DecidableEq

/-- The pure result of `ARPSValidator.validate_fit`: runs the six tests in
source order, records each test's entry, and sets `overall_pass` to the
conjunction `all([test1_pass, ..., test6_pass])` of the booleans the six
test methods return. -/
def validateFitPure (tAct qAct qPred : List ℚ) (qiFit deiFit bFit defVal : ℚ)
    (wellId phase : String) : ValidationReport :=
  let t1 := validateTimeZero tAct
  let t2 := validateFirstPoint qAct qPred
  let t3 := validateDeclineTrend qPred
  let t4 := validateGof qAct qPred
  let t5 := validateParameters qiFit deiFit bFit defVal
  let t6 := validateResiduals qAct qPred
  { wellId := wellId, phase := phase,
    testTimeZero := t1,
    testFirstPointPass := firstPointRecordedPass qAct qPred,
    testDeclinePass := t3,
    testGofPass := decide (7 / 10 < r2Of qAct qPred),
    testParamsPass := t5,
    testResidualPass := t6,
    overallPass := t1 && t2 && t3 && t4 && t5 && t6,
    warningsCount := firstPointWarnCount qAct qPred + declineWarnCount qPred +
      gofWarnCount qAct qPred + paramIssueCount qiFit deiFit bFit defVal +
      residWarnCount qAct qPred,
    errorsCount := timeZeroErrCount tAct + firstPointErrCount qAct qPred }

/-- The `ARPSValidator` instance state: the constructor flags and the
`self.validation_results` field, initialised to the empty dict (`none`)
and reassigned at the end of every completed `validate_fit` call. -/
structure ARPSValidatorState where
  strictMode : Bool
  logWarnings : Bool
  validationResults : Option ValidationReport
deriving DecidableEq

/-- `ARPSValidator.__init__(strict_mode, log_warnings)`. -/
def mkValidator (strictMode logWarnings : Bool) : ARPSValidatorState :=
  { strictMode := strictMode, logWarnings := logWarnings, validationResults := none }

/-- `ARPSValidator.validate_fit` with its instance state made explicit:
builds the report, raises `ARPSValidationError` (an `Except.error`, with
the message prefix of the source) in strict mode on an overall failure —
in which case `self.validation_results` is NOT yet reassigned — and
otherwise stores the report in `self.validation_results` and returns it. -/
def validateFitStateful (v : ARPSValidatorState) (tAct qAct qPred : List ℚ)
    (qiFit deiFit bFit defVal : ℚ) (wellId phase : String) :
    ARPSValidatorState × Except String ValidationReport :=
  let results := validateFitPure tAct qAct qPred qiFit deiFit bFit defVal wellId phase
  if v.strictMode ∧ results.overallPass = false then
    (v, Except.error ("ARPS validation failed for Well " ++ wellId ++ " " ++ phase))
  else
    ({ v with validationResults := some results }, Except.ok results)

/-- `ARPSValidator.get_summary_stats`: `None` before any call, else a
summary read from the cached last validation result. -/
def getSummaryStats (v : ARPSValidatorState) : Option (Bool × ℕ × ℕ) :=
  match v.validationResults with
  | none => none
  | some r => some (r.overallPass, r.warningsCount, r.errorsCount)

/-- The batch loop of `main` (lines 573–590): for each well-list row, run
the processing step inside `try`; on success append the result row, on any
exception print and `continue` — appending nothing. -/
def mainLoop {α : Type} (process : α → Except String FitRow) (wells : List α) :
    List FitRow :=
  wells.foldl (fun results w =>
    match process w with
    | Except.ok r => results ++ [r]
    | Except.error _ => results) []

/-- A fit oracle whose optimizer calls always fail, for concrete
instantiations. -/
def failOracle : FitOracle :=
  { fitDeiB := fun _ _ _ _ _ => none,
    fitDei := fun _ _ _ _ _ => none,
    varps := fun _ _ _ _ _ => [],
    gof := fun _ _ => (0, 0, 0) }

/-- A fit oracle that always returns fixed optimized values, for concrete
instantiations. -/
def constOracle : FitOracle :=
  { fitDeiB := fun _ _ _ _ _ => some (1 / 4, 11 / 10),
    fitDei := fun _ _ _ _ _ => some (1 / 4),
    varps := fun qi _ _ _ t => t.map (fun _ => qi),
    gof := fun _ _ => (9 / 10, 2, 1) }

/-- Example b-factor dictionary for concrete instantiations. -/
def exBDict : BDict := { min := 1 / 2, guess := 9 / 10, max := 7 / 5 }

/-- Example initial-decline dictionary for concrete instantiations. -/
def exDeiDict : DeiDict := { min := some (6 / 100), guess := 1 / 2, max := 98 / 100 }

/-- Example terminal-decline mapping for concrete instantiations. -/
def exDefDict : String → ℚ := fun _ => 6 / 100

/-- Example abandonment-rate mapping for concrete instantiations. -/
def exMinQDict : String → ℚ := fun _ => 1

/-- C1: Qi is never a free optimization parameter in the general-case
fitting paths: each of the three optimizer configurations built by
`fit_arps_curve` (`auto_fit1`, `auto_fit2`) and by
`fit_aggregate_arps_curve` carries `Qi` in its `fixed` mapping and not in
its `optimize` list, and every result row of `fit_arps_curve` has its
fitted Qi (`Q3`) equal to the `Q_guess` field, which is the (possibly
smoothed) first observed rate. -/
theorem C1_qi_never_free :
    (∀ q d : ℚ, "Qi" ∈ (autoFit1Cfg q d).fixed.map Prod.fst ∧
      "Qi" ∉ (autoFit1Cfg q d).optimize) ∧
    (∀ q b d : ℚ, "Qi" ∈ (autoFit2Cfg q b d).fixed.map Prod.fst ∧
      "Qi" ∉ (autoFit2Cfg q b d).optimize) ∧
    (∀ q d : ℚ, "Qi" ∈ (aggregateCfg q d).fixed.map Prod.fst ∧
      "Qi" ∉ (aggregateCfg q d).optimize) ∧
    (∀ (oracle : FitOracle) (pid phase : String) (bD : BDict) (dD : DeiDict)
      (fD mD : String → ℚ) (tA qA : List ℚ) (sd sm : ℤ) (fs : String) (sf : ℕ),
      (fitArpsCurve oracle pid phase bD dD fD mD tA qA sd sm fs sf).q3 =
        (fitArpsCurve oracle pid phase bD dD fD mD tA qA sd sm fs sf).qGuess ∧
      (fitArpsCurve oracle pid phase bD dD fD mD tA qA sd sm fs sf).qGuess =
        qA.headD 0) := by
  refine ⟨fun q d => ⟨by simp [autoFit1Cfg], by simp [autoFit1Cfg]⟩,
    fun q b d => ⟨by simp [autoFit2Cfg], by simp [autoFit2Cfg]⟩,
    fun q d => ⟨by simp [aggregateCfg], by simp [aggregateCfg]⟩,
    fun oracle pid phase bD dD fD mD tA qA sd sm fs sf => ?_⟩
  simp only [fitArpsCurve]
  split
  · exact ⟨rfl, rfl⟩
  · split
    · split
      · exact ⟨rfl, rfl⟩
      · exact ⟨rfl, rfl⟩
    · split
      · exact ⟨rfl, smoothN_headD _ _⟩
      · split
        · exact ⟨rfl, smoothN_headD _ _⟩
        · exact ⟨rfl, smoothN_headD _ _⟩

/-- C2: when the first-point rate is below the phase's abandonment
threshold or the selected segment has fewer than 3 points,
`fit_arps_curve` returns the degenerate `auto_fit_3` record: Qi is the
first point, Dei is `max(guess, Def)`, b is the guess, and R², RMSE, MAE
are not computed (`none`). -/
theorem C2_degenerate_result (oracle : FitOracle) (pid phase : String) (bD : BDict)
    (dD : DeiDict) (fD mD : String → ℚ) (tA qA : List ℚ) (sd sm : ℤ)
    (fs : String) (sf : ℕ) (hne : qA ≠ [])
    (hdeg : qA.headD 0 < mD phase ∨ qA.length < 3) :
    (fitArpsCurve oracle pid phase bD dD fD mD tA qA sd sm fs sf).fitType =
      "auto_fit_3" ∧
    (fitArpsCurve oracle pid phase bD dD fD mD tA qA sd sm fs sf).q3 = qA.headD 0 ∧
    (fitArpsCurve oracle pid phase bD dD fD mD tA qA sd sm fs sf).dei =
      max dD.guess (fD phase) ∧
    (fitArpsCurve oracle pid phase bD dD fD mD tA qA sd sm fs sf).bFactor = bD.guess ∧
    (fitArpsCurve oracle pid phase bD dD fD mD tA qA sd sm fs sf).rSquared = none ∧
    (fitArpsCurve oracle pid phase bD dD fD mD tA qA sd sm fs sf).rmse = none ∧
    (fitArpsCurve oracle pid phase bD dD fD mD tA qA sd sm fs sf).mae = none := by
  simp only [fitArpsCurve, if_pos hdeg]
  simp [autoFit3Row]

/-- Concrete instance of `C2_degenerate_result`: a 2-point series with
first rate below the abandonment threshold. -/
theorem C2_degenerate_result_witness :
    (fitArpsCurve failOracle "W1" "OIL" exBDict exDeiDict exDefDict exMinQDict
      [0, 1] [1 / 2, 1 / 4] 0 1 "all" 2).fitType = "auto_fit_3" ∧
    (fitArpsCurve failOracle "W1" "OIL" exBDict exDeiDict exDefDict exMinQDict
      [0, 1] [1 / 2, 1 / 4] 0 1 "all" 2).q3 = ([1 / 2, 1 / 4] : List ℚ).headD 0 ∧
    (fitArpsCurve failOracle "W1" "OIL" exBDict exDeiDict exDefDict exMinQDict
      [0, 1] [1 / 2, 1 / 4] 0 1 "all" 2).dei =
      max exDeiDict.guess (exDefDict "OIL") ∧
    (fitArpsCurve failOracle "W1" "OIL" exBDict exDeiDict exDefDict exMinQDict
      [0, 1] [1 / 2, 1 / 4] 0 1 "all" 2).bFactor = exBDict.guess ∧
    (fitArpsCurve failOracle "W1" "OIL" exBDict exDeiDict exDefDict exMinQDict
      [0, 1] [1 / 2, 1 / 4] 0 1 "all" 2).rSquared = none ∧
    (fitArpsCurve failOracle "W1" "OIL" exBDict exDeiDict exDefDict exMinQDict
      [0, 1] [1 / 2, 1 / 4] 0 1 "all" 2).rmse = none ∧
    (fitArpsCurve failOracle "W1" "OIL" exBDict exDeiDict exDefDict exMinQDict
      [0, 1] [1 / 2, 1 / 4] 0 1 "all" 2).mae = none :=
  C2_degenerate_result failOracle "W1" "OIL" exBDict exDeiDict exDefDict exMinQDict
    [0, 1] [1 / 2, 1 / 4] 0 1 "all" 2 (List.cons_ne_nil _ _) (Or.inr (by norm_num))

/-- C3: a series of length ≥ 7 that is not gated by the abandonment
threshold reaches the full-optimize branch: the rate series is smoothed by
`smoothing_factor` passes of the 3-point rolling average, `Qi_guess` is
reset to the smoothed first point (which equals the raw first point), and
the cascade is `auto_fit1` (optimize \x7bDei,b\x7d, Qi and Def fixed), on
failure `auto_fit2` (optimize \x7bDei\x7d), on failure the degenerate
`auto_fit3` — three bounded attempts. -/
theorem C3_full_optimize_cascade (oracle : FitOracle) (pid phase : String)
    (bD : BDict) (dD : DeiDict) (fD mD : String → ℚ) (tA qA : List ℚ)
    (sd sm : ℤ) (fs : String) (sf : ℕ)
    (hq : ¬ qA.headD 0 < mD phase) (h7 : 7 ≤ qA.length) :
    (smoothN sf qA).headD 0 = qA.headD 0 ∧
    (∀ p : ℚ × ℚ,
      oracle.fitDeiB tA (smoothN sf qA) [dD.guess, bD.guess]
        [(dD.min.getD (fD phase), min bD.min bD.max), (dD.max, max bD.min bD.max)]
        (autoFit1Cfg ((smoothN sf qA).headD 0) (fD phase)) = some p →
      fitArpsCurve oracle pid phase bD dD fD mD tA qA sd sm fs sf =
        autoFit1Row oracle pid phase qA.length fs sd sm ((smoothN sf qA).headD 0)
          p.1 p.2 (fD phase) tA (smoothN sf qA)) ∧
    (oracle.fitDeiB tA (smoothN sf qA) [dD.guess, bD.guess]
        [(dD.min.getD (fD phase), min bD.min bD.max), (dD.max, max bD.min bD.max)]
        (autoFit1Cfg ((smoothN sf qA).headD 0) (fD phase)) = none →
      (∀ d : ℚ,
        oracle.fitDei tA (smoothN sf qA) [dD.guess] [(dD.min.getD (fD phase), dD.max)]
          (autoFit2Cfg ((smoothN sf qA).headD 0) bD.guess (fD phase)) = some d →
        fitArpsCurve oracle pid phase bD dD fD mD tA qA sd sm fs sf =
          autoFit2Row oracle pid phase qA.length fs sd sm ((smoothN sf qA).headD 0)
            d bD.guess (fD phase) tA (smoothN sf qA)) ∧
      (oracle.fitDei tA (smoothN sf qA) [dD.guess] [(dD.min.getD (fD phase), dD.max)]
          (autoFit2Cfg ((smoothN sf qA).headD 0) bD.guess (fD phase)) = none →
        fitArpsCurve oracle pid phase bD dD fD mD tA qA sd sm fs sf =
          autoFit3Row pid phase qA.length fs sd sm ((smoothN sf qA).headD 0)
            dD.guess (fD phase) bD.guess)) := by
  have h3 : ¬ (qA.headD 0 < mD phase ∨ qA.length < 3) := by
    rintro (h | h)
    · exact hq h
    · omega
  have h7' : ¬ qA.length < 7 := by omega
  refine ⟨smoothN_headD _ _, ?_, ?_⟩
  · intro p hp
    simp only [fitArpsCurve, if_neg h3, if_neg h7', hp]
  · intro hnone
    refine ⟨fun d hd => ?_, fun hd => ?_⟩
    · simp only [fitArpsCurve, if_neg h3, if_neg h7', hnone, hd]
    · simp only [fitArpsCurve, if_neg h3, if_neg h7', hnone, hd]

/-- Concrete instance of `C3_full_optimize_cascade`: a 7-point series with
a failing optimizer falls through the whole cascade to the degenerate
row. -/
theorem C3_full_optimize_cascade_witness :
    fitArpsCurve failOracle "W1" "OIL" exBDict exDeiDict exDefDict exMinQDict
      [0, 1, 2, 3, 4, 5, 6] [9, 8, 7, 6, 5, 4, 3] 0 1 "all" 2 =
      autoFit3Row "W1" "OIL" 7 "all" 0 1
        ((smoothN 2 [9, 8, 7, 6, 5, 4, 3]).headD 0) exDeiDict.guess
        (exDefDict "OIL") exBDict.guess :=
  ((C3_full_optimize_cascade failOracle "W1" "OIL" exBDict exDeiDict exDefDict
      exMinQDict [0, 1, 2, 3, 4, 5, 6] [9, 8, 7, 6, 5, 4, 3] 0 1 "all" 2
      (by norm_num [exMinQDict]) (by norm_num)).2.2 rfl).2 rfl

/-- C7: when the measure has records but fewer than 3 averaged month
buckets exist, `fit_aggregate_arps_curve` attempts no fit and still
returns the aggregate series (result `none`, aggregated series `some`),
with no `predicted` column attached. -/
theorem C7_too_few_buckets (oracle : FitOracle) (measure : String) (bD : BDict)
    (dD : DeiDict) (fD mD : String → ℚ) (rows : List ProdRec) (sf : ℕ)
    (hne : ¬ (aggFilter measure rows).isEmpty = true)
    (hlt : (aggRows (aggFilter measure rows)).length < 3) :
    fitAggregateArpsCurve oracle measure bD dD fD mD rows sf =
      (none, some (aggRows (aggFilter measure rows))) ∧
    ∀ a ∈ aggRows (aggFilter measure rows), a.predicted = none := by
  constructor
  · simp only [fitAggregateArpsCurve, if_neg hne]
    rw [if_pos (by simpa using hlt)]
  · intro a ha
    simp only [aggRows, List.mem_map] at ha
    obtain ⟨m, _, rfl⟩ := ha
    rfl

/-- Concrete instance of `C7_too_few_buckets`: a single OIL record gives
one bucket, so no fit is attempted and the one-bucket series is
returned. -/
theorem C7_too_few_buckets_witness :
    fitAggregateArpsCurve failOracle "OIL" exBDict exDeiDict exDefDict exMinQDict
      [{ wellId := "W1", measure := "OIL", dateDays := 0, value := 100 }] 2 =
      (none, some (aggRows (aggFilter "OIL"
        [{ wellId := "W1", measure := "OIL", dateDays := 0, value := 100 }]))) ∧
    ∀ a ∈ aggRows (aggFilter "OIL"
      [{ wellId := "W1", measure := "OIL", dateDays := 0, value := 100 }]),
      a.predicted = none :=
  C7_too_few_buckets failOracle "OIL" exBDict exDeiDict exDefDict exMinQDict
    [{ wellId := "W1", measure := "OIL", dateDays := 0, value := 100 }] 2
    (by norm_num [aggFilter])
    (by norm_num [aggRows, aggFilter, listMinInt])

/-- C10: `fit_aggregate_arps_curve` never propagates a fitting exception:
with no positive-rate records for the measure it returns `(None, None)`,
and when at least 3 buckets exist but the curve-fit step raises (an
optimizer oracle that always fails), the exception is caught and
`(None, aggregated)` is returned. -/
theorem C10_aggregate_catches_fit_errors :
    (∀ (oracle : FitOracle) (measure : String) (bD : BDict) (dD : DeiDict)
      (fD mD : String → ℚ) (rows : List ProdRec) (sf : ℕ),
      aggFilter measure rows = [] →
      fitAggregateArpsCurve oracle measure bD dD fD mD rows sf = (none, none)) ∧
    (∀ (oracle : FitOracle) (measure : String) (bD : BDict) (dD : DeiDict)
      (fD mD : String → ℚ) (rows : List ProdRec) (sf : ℕ),
      (∀ t q ig bd cfg, oracle.fitDeiB t q ig bd cfg = none) →
      ¬ (aggFilter measure rows).isEmpty = true →
      3 ≤ (aggRows (aggFilter measure rows)).length →
      fitAggregateArpsCurve oracle measure bD dD fD mD rows sf =
        (none, some (aggRows (aggFilter measure rows)))) := by
  constructor
  · intro oracle measure bD dD fD mD rows sf hempty
    simp only [fitAggregateArpsCurve, hempty]
    rfl
  · intro oracle measure bD dD fD mD rows sf hfail hne hge
    simp only [fitAggregateArpsCurve, if_neg hne]
    rw [if_neg (by simp; omega), hfail]

/-- Concrete instance of `C10_aggregate_catches_fit_errors`: an empty
record set yields `(none, none)`, and a 3-bucket series with a failing
optimizer yields `(none, some aggregated)`. -/
theorem C10_aggregate_catches_fit_errors_witness :
    fitAggregateArpsCurve failOracle "OIL" exBDict exDeiDict exDefDict exMinQDict
      [] 2 = (none, none) ∧
    fitAggregateArpsCurve failOracle "OIL" exBDict exDeiDict exDefDict exMinQDict
      [{ wellId := "W1", measure := "OIL", dateDays := 0, value := 100 },
       { wellId := "W1", measure := "OIL", dateDays := 40, value := 50 },
       { wellId := "W1", measure := "OIL", dateDays := 70, value := 25 }] 2 =
      (none, some (aggRows (aggFilter "OIL"
        [{ wellId := "W1", measure := "OIL", dateDays := 0, value := 100 },
         { wellId := "W1", measure := "OIL", dateDays := 40, value := 50 },
         { wellId := "W1", measure := "OIL", dateDays := 70, value := 25 }]))) :=
  ⟨C10_aggregate_catches_fit_errors.1 failOracle "OIL" exBDict exDeiDict exDefDict
      exMinQDict [] 2 rfl,
   C10_aggregate_catches_fit_errors.2 failOracle "OIL" exBDict exDeiDict exDefDict
      exMinQDict _ 2 (fun _ _ _ _ _ => rfl)
      (by norm_num [aggFilter])
      (by norm_num [aggRows, aggFilter, listMinInt, bucketOf])⟩

/-- Monthly records of a single well spaced 30 days apart (exactly the
spacing the repository's sample-data generator uses, `days=30*i`): the
day offsets 0 and 30 both fall in month bucket 0 under
`int(days / 30.42)`. -/
def exDupRows : List ProdRec :=
  [{ wellId := "W1", measure := "OIL", dateDays := 0, value := 10 },
   { wellId := "W1", measure := "OIL", dateDays := 30, value := 20 },
   { wellId := "W1", measure := "OIL", dateDays := 60, value := 30 }]

/-- C6 (evaluation at the failing input): for one well with 30-day-spaced
monthly records, bucket 0 receives two records of the same well, so the
code's `well_count` (pandas `count` of records) is 2 while the number of
contributing wells is 1, and `avg_production` is the mean over records. -/
theorem C6_wellcount_counts_records :
    aggRows (aggFilter "OIL" exDupRows) =
      [{ monthsFromStart := 0, avgProduction := 15, wellCount := 2, predicted := none },
       { monthsFromStart := 1, avgProduction := 30, wellCount := 1, predicted := none }] ∧
    ((exDupRows.filter (fun r => decide (bucketOf 0 r.dateDays = 0))).map
        (fun r => r.wellId)).dedup = ["W1"] ∧
    (2 : ℕ) ≠ 1 := by
  refine ⟨?_, ?_, by decide⟩
  · norm_num [aggRows, aggFilter, listMinInt, bucketOf, exDupRows]
  · norm_num [bucketOf, exDupRows]

/-- C4: `overall_pass` of the report returned by `validate_fit` is true
exactly when all six test methods pass, and predicted-rate arrays of
length < 2 automatically pass the decline-trend test. -/
theorem C4_overall_pass_is_conjunction (tA qA qP : List ℚ) (qi dei b defV : ℚ)
    (wid ph : String) :
    ((validateFitPure tA qA qP qi dei b defV wid ph).overallPass = true ↔
      (validateTimeZero tA = true ∧ validateFirstPoint qA qP = true ∧
       validateDeclineTrend qP = true ∧ validateGof qA qP = true ∧
       validateParameters qi dei b defV = true ∧ validateResiduals qA qP = true)) ∧
    (qP.length < 2 → validateDeclineTrend qP = true) := by
  constructor
  · simp [validateFitPure, Bool.and_eq_true, and_assoc]
  · intro h
    simp [validateDeclineTrend, h]

/-- Concrete instance of `C4_overall_pass_is_conjunction`: a 1-point
predicted-rate array auto-passes the decline-trend test. -/
theorem C4_overall_pass_is_conjunction_witness :
    validateDeclineTrend [5] = true :=
  (C4_overall_pass_is_conjunction [0] [10] [5] 10 (1 / 2) 1 (6 / 100) "W1" "OIL").2
    (by norm_num)

/-- C5 counterexample: at first-point relative error exactly 15% (actual
100, predicted 115) the recorded `pass` field is `False` while the test's
contribution to `overall_pass` is `True` — so the claim that both equal
`error < 0.15` fails. -/
theorem C5_boundary_counterexample :
    firstPointErrorPct [100] [115] = 15 ∧
    firstPointRecordedPass [100] [115] = false ∧
    validateFirstPoint [100] [115] = true := by
  refine ⟨?_, ?_, ?_⟩ <;>
    norm_num [firstPointErrorPct, firstPointRecordedPass, validateFirstPoint]

/-- C5 (amended): for nonempty rate arrays, the recorded per-test `pass`
field is `error_pct < 15`, the boolean contribution to `overall_pass` is
`error_pct ≤ 15` (it fails only when the error strictly exceeds 15%), a
failing contribution forces `overall_pass = False`, and a warning is
emitted exactly when `error_pct` strictly exceeds 10. -/
theorem C5_first_point_alignment (tA qA qP : List ℚ) (qi dei b defV : ℚ)
    (wid ph : String) (h1 : qA ≠ []) (h2 : qP ≠ []) :
    (validateFitPure tA qA qP qi dei b defV wid ph).testFirstPointPass =
      decide (firstPointErrorPct qA qP < 15) ∧
    validateFirstPoint qA qP = decide (firstPointErrorPct qA qP ≤ 15) ∧
    (validateFirstPoint qA qP = false →
      (validateFitPure tA qA qP qi dei b defV wid ph).overallPass = false) ∧
    firstPointWarnCount qA qP = (if 10 < firstPointErrorPct qA qP then 1 else 0) := by
  rcases qA with _ | ⟨a, qA⟩
  · exact absurd rfl h1
  rcases qP with _ | ⟨p, qP⟩
  · exact absurd rfl h2
  refine ⟨rfl, rfl, ?_, ?_⟩
  · intro h
    simp [validateFitPure, h]
  · show (if 15 < firstPointErrorPct (a :: qA) (p :: qP) then 1
        else if 10 < firstPointErrorPct (a :: qA) (p :: qP) then 1 else 0) =
      (if 10 < firstPointErrorPct (a :: qA) (p :: qP) then 1 else 0)
    rcases le_or_lt (firstPointErrorPct (a :: qA) (p :: qP)) 15 with h15 | h15
    · rw [if_neg (not_lt.mpr h15)]
    · rw [if_pos h15, if_pos (lt_trans (by norm_num) h15)]

/-- Concrete instance of `C5_first_point_alignment` at an 8% first-point
error (actual 100, predicted 108). -/
theorem C5_first_point_alignment_witness :
    (validateFitPure [0] [100] [108] 100 (1 / 2) 1 (6 / 100) "W1"
        "OIL").testFirstPointPass =
      decide (firstPointErrorPct [100] [108] < 15) ∧
    validateFirstPoint [100] [108] = decide (firstPointErrorPct [100] [108] ≤ 15) ∧
    (validateFirstPoint [100] [108] = false →
      (validateFitPure [0] [100] [108] 100 (1 / 2) 1 (6 / 100) "W1"
        "OIL").overallPass = false) ∧
    firstPointWarnCount [100] [108] =
      (if 10 < firstPointErrorPct [100] [108] then 1 else 0) :=
  C5_first_point_alignment [0] [100] [108] 100 (1 / 2) 1 (6 / 100) "W1" "OIL"
    (List.cons_ne_nil _ _) (List.cons_ne_nil _ _)

/-- The folding step of `main`'s loop applied to any accumulator appends
the same suffix it produces from an empty accumulator. -/
theorem mainLoop_foldl_append {α : Type} (process : α → Except String FitRow)
    (acc : List FitRow) (ws : List α) :
    ws.foldl (fun results w =>
      match process w with
      | Except.ok r => results ++ [r]
      | Except.error _ => results) acc =
    acc ++ ws.foldl (fun results w =>
      match process w with
      | Except.ok r => results ++ [r]
      | Except.error _ => results) [] := by
  induction ws generalizing acc with
  | nil => simp
  | cons w ws ih =>
      simp only [List.foldl_cons]
      rw [ih]
      conv_rhs => rw [ih]
      cases hpw : process w <;> simp [hpw]

/-- C8 (amended): the batch loop of `main` continues past a failing well —
a well whose processing raises is skipped, contributing no row at all to
the results, while a successfully processed well contributes exactly its
result row. -/
theorem C8_continue_skips_failed_well {α : Type} (process : α → Except String FitRow)
    (w : α) (ws : List α) :
    (∀ e, process w = Except.error e →
      mainLoop process (w :: ws) = mainLoop process ws) ∧
    (∀ r, process w = Except.ok r →
      mainLoop process (w :: ws) = r :: mainLoop process ws) := by
  constructor
  · intro e he
    simp only [mainLoop, List.foldl_cons, he]
  · intro r hr
    simp only [mainLoop, List.foldl_cons, hr]
    rw [mainLoop_foldl_append]
    simp

/-- A fixed result row for batch-loop instantiations. -/
def exRowFor (w : String) : FitRow :=
  { wellId := w, measure := "OIL", fitMonths := 0, fitType := "ok",
    fitSegment := "all", startDate := 0, startMonth := 0, qGuess := 0, q3 := 0,
    dei := 0, bFactor := 0, rSquared := none, rmse := none, mae := none }

/-- A processing step that raises on the well "BAD" and succeeds
elsewhere. -/
def exProcess : String → Except String FitRow :=
  fun w => if w = "BAD" then Except.error "boom" else Except.ok (exRowFor w)

/-- C8 counterexample: with wells [W1, BAD, W3] the run continues past
BAD (W3 is still processed), but no sentinel/error row is recorded for
BAD — it is silently omitted from the results. -/
theorem C8_no_sentinel_row_counterexample :
    mainLoop exProcess ["W1", "BAD", "W3"] = [exRowFor "W1", exRowFor "W3"] ∧
    ∀ r ∈ mainLoop exProcess ["W1", "BAD", "W3"], r.wellId ≠ "BAD" := by
  have h : mainLoop exProcess ["W1", "BAD", "W3"] = [exRowFor "W1", exRowFor "W3"] :=
    rfl
  refine ⟨h, ?_⟩
  rw [h]
  intro r hr
  simp only [List.mem_cons, List.not_mem_nil, or_false] at hr
  rcases hr with rfl | rfl
  · decide
  · decide

/-- Concrete instance of `C8_continue_skips_failed_well`: the loop over
[BAD, W3] equals the loop over [W3]. -/
theorem C8_continue_skips_failed_well_witness :
    mainLoop exProcess ["BAD", "W3"] = mainLoop exProcess ["W3"] :=
  (C8_continue_skips_failed_well exProcess "BAD" ["W3"]).1 "boom" rfl

/-- C9 counterexample: one non-strict `validate_fit` call on a fresh
validator changes the instance state — `self.validation_results` goes
from the initial empty value to the produced report — so the validator is
not stateless. -/
theorem C9_not_stateless_counterexample :
    (validateFitStateful (mkValidator false true) [0] [10] [10] 10 (1 / 2) 1
      (6 / 100) "W1" "OIL").1 ≠ mkValidator false true ∧
    (validateFitStateful (mkValidator false true) [0] [10] [10] 10 (1 / 2) 1
      (6 / 100) "W1" "OIL").1.validationResults =
      some (validateFitPure [0] [10] [10] 10 (1 / 2) 1 (6 / 100) "W1" "OIL") ∧
    (mkValidator false true).validationResults = none := by
  refine ⟨?_, ?_, rfl⟩
  · intro hEq
    have h2 := congrArg ARPSValidatorState.validationResults hEq
    simp [validateFitStateful, mkValidator] at h2
  · simp [validateFitStateful, mkValidator]

/-- C9 (amended): every completed `validate_fit` call returns a fresh
report computed from the inputs alone, and stores that same report in the
instance field `validation_results` — the one instance-level mutation;
the returned report value itself is never mutated afterwards. -/
theorem C9_validator_caches_report (v : ARPSValidatorState) (tA qA qP : List ℚ)
    (qi dei b defV : ℚ) (wid ph : String)
    (h : ¬ (v.strictMode = true ∧
      (validateFitPure tA qA qP qi dei b defV wid ph).overallPass = false)) :
    validateFitStateful v tA qA qP qi dei b defV wid ph =
      ({ v with validationResults := (some
          (validateFitPure tA qA qP qi dei b defV wid ph)) },
       Except.ok (validateFitPure tA qA qP qi dei b defV wid ph)) ∧
    getSummaryStats (validateFitStateful v tA qA qP qi dei b defV wid ph).1 =
      some ((validateFitPure tA qA qP qi dei b defV wid ph).overallPass,
        (validateFitPure tA qA qP qi dei b defV wid ph).warningsCount,
        (validateFitPure tA qA qP qi dei b defV wid ph).errorsCount) := by
  have hmain : validateFitStateful v tA qA qP qi dei b defV wid ph =
      ({ v with validationResults := (some
          (validateFitPure tA qA qP qi dei b defV wid ph)) },
       Except.ok (validateFitPure tA qA qP qi dei b defV wid ph)) := by
    simp only [validateFitStateful, if_neg h]
  exact ⟨hmain, by rw [hmain]; rfl⟩

/-- A fresh non-strict validator for concrete instantiations. -/
def freshValidator : ARPSValidatorState := mkValidator false true

/-- Concrete instance of `C9_validator_caches_report` on a fresh
non-strict validator. -/
theorem C9_validator_caches_report_witness :
    validateFitStateful freshValidator [0] [10] [10] 10 (1 / 2) 1
      (6 / 100) "W1" "OIL" =
      ({ freshValidator with validationResults := (some
          (validateFitPure [0] [10] [10] 10 (1 / 2) 1 (6 / 100) "W1" "OIL")) },
       Except.ok (validateFitPure [0] [10] [10] 10 (1 / 2) 1 (6 / 100) "W1" "OIL")) ∧
    getSummaryStats (validateFitStateful freshValidator [0] [10] [10] 10
      (1 / 2) 1 (6 / 100) "W1" "OIL").1 =
      some ((validateFitPure [0] [10] [10] 10 (1 / 2) 1 (6 / 100) "W1"
          "OIL").overallPass,
        (validateFitPure [0] [10] [10] 10 (1 / 2) 1 (6 / 100) "W1"
          "OIL").warningsCount,
        (validateFitPure [0] [10] [10] 10 (1 / 2) 1 (6 / 100) "W1"
          "OIL").errorsCount) :=
  C9_validator_caches_report freshValidator [0] [10] [10] 10 (1 / 2) 1
    (6 / 100) "W1" "OIL" (by simp [freshValidator, mkValidator])

end ARPcurves
